import Mathlib

/-!
Verification of the upload-and-generate controller in `src/index.js`.

The controller owns one mutable state record (selected file, prompt, result,
error, generation phase) and four event handlers: file selection, file
removal, prompt editing and form submission.  Each handler is embedded below
as a pure state-transition function, translated line by line from the source.

Modelling conventions:
- JS strings are Lean `String`; the falsiness test `!s` on a string is `s = ""`.
- `state.file === null` is `Option.none`; `state.error === null` is `Option.none`.
- The browser FileReader produces the base64 text of the file bytes; an input
  file carries that encoding in its `base64` field, and `fileToBase64` returns
  it (no claim inspects the encoding function itself).
- The JSZip collaborator is modelled as a deterministic packer: the archive is
  the list of (path, content) entries, serialized by `zipEncode`.  JSZip is
  assumed loaded (the `typeof JSZip === "undefined"` throw is not modelled).
- Handlers run atomically, matching the concurrency model of the design
  (single-threaded, each handler runs to completion before the next event).
- The external generative API call is an oracle parameter of type
  `Except String String`: `.error msg` models a thrown failure with message
  `msg`, `.ok text` models a response whose `text` field is `text`.  Whether
  an API credential is configured is the boolean `hasAI` (`ai` truthy in the
  source).
-/

/-- The `GenerationState` enumeration of `src/index.js` lines 8-13. -/
inductive GenerationState where
  | IDLE
  | LOADING
  | SUCCESS
  | ERROR
deriving DecidableEq, Repr

/-- The shape of `state.file` when set: `{ name, type, size, base64 }`
(`src/index.js` line 16). -/
structure StateFile where
  name : String
  type : String
  size : Nat
  base64 : String
deriving DecidableEq, Repr

/-- The controller state object (`src/index.js` lines 15-21). -/
structure AppState where
  file : Option StateFile
  prompt : String
  result : String
  error : Option String
  generationState : GenerationState
deriving DecidableEq, Repr

/-- The initial state on page load (`src/index.js` lines 15-21). -/
def initialState : AppState :=
  { file := none, prompt := "", result := "", error := none,
    generationState := GenerationState.IDLE }

/-- A file handed to the controller by the browser: name, MIME type, size in
bytes, `webkitRelativePath` (empty when unavailable), and the base64 text of
its bytes as produced by FileReader. -/
structure InputFile where
  name : String
  type : String
  size : Nat
  webkitRelativePath : String
  base64 : String
deriving DecidableEq, Repr

/-- Definition `MAX_SIZE = 10 * 1024 * 1024` (`src/index.js` line 182). -/
def MAX_SIZE : Nat := 10 * 1024 * 1024

/-- JS `toLowerCase`, character by character (the file names involved are
ASCII). -/
def jsToLower (s : String) : String := String.mk (s.data.map Char.toLower)

/-- JS `a.endsWith(b)` as a suffix test on the character lists. -/
def jsEndsWith (s t : String) : Bool := t.data.isSuffixOf s.data

/-- JS `String.prototype.trim`, dropping whitespace from both ends. -/
def jsTrim (s : String) : String :=
  String.mk
    (((s.data.dropWhile Char.isWhitespace).reverse.dropWhile Char.isWhitespace).reverse)

/-- JS `rel.split("/")[0]`: the characters before the first `/`. -/
def firstSegment (s : String) : String :=
  String.mk (s.data.takeWhile (fun c => !(c == '/')))

/-- Function `fileToBase64` (`src/index.js` lines 55-62): reads the file and yields the
base64 text of its bytes, which the model carries in the input record. -/
def fileToBase64 (f : InputFile) : String := f.base64

/-- The archive path of one file: `f.webkitRelativePath || f.name`
(`src/index.js` line 72). -/
def zipPath (f : InputFile) : String :=
  if f.webkitRelativePath = "" then f.name else f.webkitRelativePath

/-- The (path, content) entries added to the archive by the loop in
`filesToZipBase64` (`src/index.js` lines 70-75). -/
def zipEntries (files : List InputFile) : List (String × String) :=
  files.map (fun f => (zipPath f, fileToBase64 f))

/-- Deterministic serialization of the archive entries, standing for
JSZip `generateAsync({ type: "base64" })`. -/
def zipEncode (entries : List (String × String)) : String :=
  String.intercalate ";" (entries.map (fun e => e.1 ++ ":" ++ e.2))

/-- Function `filesToZipBase64` (`src/index.js` lines 65-79). -/
def filesToZipBase64 (files : List InputFile) : String :=
  zipEncode (zipEntries files)

/-- The archive test of `src/index.js` line 205:
`f.name.toLowerCase().endsWith(".zip") || f.type === "application/zip"`. -/
def isZipFile (f : InputFile) : Bool :=
  jsEndsWith (jsToLower f.name) ".zip" || f.type == "application/zip"

/-- The MIME allow-list of `src/index.js` line 215. -/
def allowedTypes : List String :=
  ["application/pdf", "application/msword",
   "application/vnd.openxmlformats-officedocument.wordprocessingml.document",
   "text/plain"]

/-- The archive name for a multi-file selection (`src/index.js` lines 191-197):
first file of the selection, `rel = first.webkitRelativePath || ""`,
`folderName = rel ? (rel.split("/")[0] || "archive") : "archive"`, then
`folderName + ".zip"`. -/
def zipName (files : List InputFile) : String :=
  match files with
  | [] => "archive.zip"
  | first :: _ =>
    let rel := first.webkitRelativePath
    let folderName :=
      if rel = "" then "archive"
      else
        let h := firstSegment rel
        if h = "" then "archive" else h
    folderName ++ ".zip"

/-- The single-file branch of `handleFileSelect` (`src/index.js` lines
202-225): a zip-named or zip-typed file is read directly; a non-zip file is
validated for size, then MIME type, before being read. -/
def selectSingle (f : InputFile) : Except String StateFile :=
  if isZipFile f then
    Except.ok { name := f.name, type := "application/zip", size := f.size,
                base64 := fileToBase64 f }
  else if MAX_SIZE < f.size then
    Except.error "File is too large. Maximum size is 10MB."
  else if f.type ∈ allowedTypes then
    Except.ok { name := f.name,
                type := if f.type = "" then "application/octet-stream" else f.type,
                size := f.size, base64 := fileToBase64 f }
  else
    Except.error
      "Invalid file type. Please upload PDF, DOC, DOCX, or TXT, or upload a ZIP/folder."

/-- The multi-file branch of `handleFileSelect` (`src/index.js` lines
185-201): each file is checked against `MAX_SIZE`, the first oversized file
aborts the selection, otherwise all files are zipped into one archive entry
with `size: 0`. -/
def selectMultiple (files : List InputFile) : Except String StateFile :=
  match files.find? (fun f => decide (MAX_SIZE < f.size)) with
  | some f =>
    Except.error ("One of the selected files is too large (max 10MB): " ++ f.name)
  | none =>
    Except.ok { name := zipName files, type := "application/zip", size := 0,
                base64 := filesToZipBase64 files }

/-- The tail of `handleFileSelect`: on success the new file record is stored
and per-request state reset (`src/index.js` lines 228-232); the catch block
records the message, clears the file and enters `ERROR`, leaving `result`
untouched (`src/index.js` lines 233-239). -/
def applyOutcome (out : Except String StateFile) (s : AppState) : AppState :=
  match out with
  | Except.ok fr =>
    { s with file := some fr, result := "", error := none,
             generationState := GenerationState.IDLE }
  | Except.error msg =>
    { s with error := some msg, file := none,
             generationState := GenerationState.ERROR }

/-- Handler `handleFileSelect` (`src/index.js` lines 166-240) on a normalized file
list: empty input returns immediately, more than one file takes the archive
branch, exactly one file takes the single-file branch. -/
def handleFileSelect (files : List InputFile) (s : AppState) : AppState :=
  match files with
  | [] => s
  | [f] => applyOutcome (selectSingle f) s
  | f1 :: f2 :: rest => applyOutcome (selectMultiple (f1 :: f2 :: rest)) s

/-- Handler `handleFileRemove` (`src/index.js` lines 242-254): always clears the file,
prompt and result; clears the error and returns to `IDLE` only when the live
API client `ai` is initialized. -/
def handleFileRemove (hasAI : Bool) (s : AppState) : AppState :=
  let s1 := { s with file := (none : Option StateFile), prompt := "", result := "" }
  if hasAI then
    { s1 with error := none, generationState := GenerationState.IDLE }
  else s1

/-- The prompt `input` listener (`src/index.js` lines 307-310): one-way sync
of the textarea value into `state.prompt`. -/
def handlePromptInput (t : String) (s : AppState) : AppState :=
  { s with prompt := t }

/-- The guard and `LOADING` entry of `handleSubmit` (`src/index.js` lines
259-264): `if (!state.file || !state.prompt) return;` then phase `LOADING`
with `result` and `error` cleared, before any request is made.  `none` means
the guard returned. -/
def submitBegin (s : AppState) : Option AppState :=
  if s.file.isNone || s.prompt == "" then none
  else some { s with generationState := GenerationState.LOADING,
                     result := "", error := none }

/-- The demo-mode response string of `src/index.js` line 270. -/
def demoResponse (fileName prompt : String) : String :=
  "Demo response:\nFile: " ++ fileName ++ "\nPrompt: " ++ prompt ++
  "\n\n(This is a simulated response because no API key was provided.)"

/-- Handler `handleSubmit` (`src/index.js` lines 256-293).  `hasAI` is whether the
live client `ai` was initialized; `oracle` is the outcome of the external
`generateContent` call (ignored in demo mode). -/
def handleSubmit (hasAI : Bool) (oracle : Except String String) (s : AppState) :
    AppState :=
  match submitBegin s with
  | none => s
  | some s1 =>
    match s.file with
    | none => s1
    | some fr =>
      if hasAI then
        match oracle with
        | Except.ok text =>
          { s1 with result := text, generationState := GenerationState.SUCCESS }
        | Except.error msg =>
          { s1 with error := some msg, generationState := GenerationState.ERROR }
      else
        { s1 with result := demoResponse fr.name s.prompt,
                  generationState := GenerationState.SUCCESS }

/-- The submit control disabled predicate of the `render` function
(`src/index.js` line 102): no file, blank prompt, or phase `LOADING`. -/
def isButtonDisabled (s : AppState) : Bool :=
  s.file.isNone || jsTrim s.prompt == "" ||
    s.generationState == GenerationState.LOADING

/-- A submit event as the browser can actually deliver it: a form whose only
submitter is a disabled button dispatches no `submit` event, so the handler
runs only when `isButtonDisabled` is false. -/
def uiSubmit (hasAI : Bool) (oracle : Except String String) (s : AppState) :
    AppState :=
  if isButtonDisabled s then s else handleSubmit hasAI oracle s

/-- The gated submit path up to the point where `LOADING` is entered
(`src/index.js` line 261): `none` when the event is not dispatched or the
guard returns, otherwise the state as of entering `LOADING`. -/
def uiSubmitEntersLoading (s : AppState) : Option AppState :=
  if isButtonDisabled s then none else submitBegin s

/-- States reachable from page load through the four event handlers, for a
fixed credential configuration `hasAI` and arbitrary inputs and API
outcomes.  The submit step uses the raw handler, so the relation also covers
submit events the disabled control would have blocked. -/
inductive Reachable (hasAI : Bool) : AppState → Prop where
  | init : Reachable hasAI initialState
  | select (files : List InputFile) (s : AppState) :
      Reachable hasAI s → Reachable hasAI (handleFileSelect files s)
  | remove (s : AppState) :
      Reachable hasAI s → Reachable hasAI (handleFileRemove hasAI s)
  | edit (t : String) (s : AppState) :
      Reachable hasAI s → Reachable hasAI (handlePromptInput t s)
  | submit (oracle : Except String String) (s : AppState) :
      Reachable hasAI s → Reachable hasAI (handleSubmit hasAI oracle s)

/-- A 2 KiB PDF, as in the spec scenario. -/
def reportPdf : InputFile :=
  { name := "report.pdf", type := "application/pdf", size := 2048,
    webkitRelativePath := "", base64 := "UERGYnl0ZXM=" }

/-- A video file with a disallowed MIME type, as in the spec scenario. -/
def movieMp4 : InputFile :=
  { name := "movie.mp4", type := "video/mp4", size := 4096,
    webkitRelativePath := "", base64 := "TVA0Ynl0ZXM=" }

/-- A zip archive one byte over the 10 MiB cap. -/
def bigZip : InputFile :=
  { name := "big.zip", type := "application/zip", size := 10485761,
    webkitRelativePath := "", base64 := "WklQYnl0ZXM=" }

/-- An arbitrary oracle value; demo-mode runs never consult it. -/
def demoOracle : Except String String := Except.ok "unused"

/-- Demo-mode run, step 1: select `report.pdf` from the initial state. -/
def demoRun1 : AppState := handleFileSelect [reportPdf] initialState

/-- Demo-mode run, step 2: type the prompt. -/
def demoRun2 : AppState := handlePromptInput "Summarize" demoRun1

/-- Demo-mode run, step 3: submit without an API credential. -/
def demoRun3 : AppState := handleSubmit false demoOracle demoRun2

/-- Demo-mode run, step 4a: then select an invalid file. -/
def demoRun4 : AppState := handleFileSelect [movieMp4] demoRun3

/-- Demo-mode run, step 4b: or instead remove the file. -/
def demoRun5 : AppState := handleFileRemove false demoRun3

/-- The `state.file` record produced by selecting `reportPdf`. -/
def reportRecord : StateFile :=
  { name := "report.pdf", type := "application/pdf", size := 2048,
    base64 := "UERGYnl0ZXM=" }

/-- The state at the moment `LOADING` is entered during the demo-mode run. -/
def loadingState : AppState :=
  { demoRun2 with generationState := GenerationState.LOADING,
                  result := "", error := none }

/-- A folder-selection input: first file of a two-file folder `docs`. -/
def folderFileA : InputFile :=
  { name := "a.txt", type := "text/plain", size := 100,
    webkitRelativePath := "docs/a.txt", base64 := "QQ==" }

/-- A folder-selection input: second file of the folder `docs`. -/
def folderFileB : InputFile :=
  { name := "b.txt", type := "text/plain", size := 200,
    webkitRelativePath := "docs/b.txt", base64 := "Qg==" }

/- ------------------------------------------------------------------ -/
/- Helper lemmas                                                       -/
/- ------------------------------------------------------------------ -/

/-- A string with a non-empty left part of an append is non-empty. -/
theorem append_ne_empty_left (a b : String) (h : a ≠ "") : a ++ b ≠ "" := by
  intro hab
  have hd : (a ++ b).data = ([] : List Char) := by rw [hab]
  rw [String.data_append] at hd
  rcases List.append_eq_nil.mp hd with ⟨h1, _⟩
  apply h
  cases a
  simp_all

/-- Both outcomes of `applyOutcome` satisfy the phase/error relationship:
a successful selection goes to `IDLE` with no error, a failed one goes to
`ERROR` with a message set. -/
theorem applyOutcome_phase_error (out : Except String StateFile) (s : AppState) :
    ((applyOutcome out s).generationState = GenerationState.SUCCESS →
      (applyOutcome out s).error = none) ∧
    ((applyOutcome out s).generationState = GenerationState.ERROR →
      (applyOutcome out s).error ≠ none) := by
  cases out <;> simp [applyOutcome]

/- ------------------------------------------------------------------ -/
/- Claim theorems                                                      -/
/- ------------------------------------------------------------------ -/

/-- C10: the submit handler never modifies the selected file or the prompt,
whatever the credential configuration and whatever the API call does, so the
user can retry without reselecting or retyping. -/
theorem c10_submit_preserves_file_and_prompt (hasAI : Bool)
    (oracle : Except String String) (s : AppState) :
    (handleSubmit hasAI oracle s).file = s.file ∧
    (handleSubmit hasAI oracle s).prompt = s.prompt := by
  obtain ⟨file, prompt, result, error, gs⟩ := s
  by_cases hp : prompt = "" <;>
    cases file <;> cases hasAI <;> cases oracle <;>
      simp [handleSubmit, submitBegin, hp]

/-- C2: when no file is selected or the prompt is blank (empty or
whitespace-only), a submit attempt is a no-op — the browser does not
dispatch the event past the disabled control, the state is unchanged, and
`LOADING` is never entered. -/
theorem c2_blank_submit_is_noop (hasAI : Bool) (oracle : Except String String)
    (s : AppState) (h : s.file = none ∨ jsTrim s.prompt = "") :
    uiSubmit hasAI oracle s = s ∧ uiSubmitEntersLoading s = none := by
  have hd : isButtonDisabled s = true := by
    rcases h with h | h <;> simp [isButtonDisabled, h]
  simp [uiSubmit, uiSubmitEntersLoading, hd]

/-- Witness for C2: from the initial state (no file), submit changes nothing
and does not enter `LOADING`. -/
theorem c2_blank_submit_is_noop_witness :
    (initialState.file = none ∨ jsTrim initialState.prompt = "") ∧
    uiSubmit false demoOracle initialState = initialState ∧
    uiSubmitEntersLoading initialState = none :=
  ⟨Or.inl rfl,
   (c2_blank_submit_is_noop false demoOracle initialState (Or.inl rfl)).1,
   (c2_blank_submit_is_noop false demoOracle initialState (Or.inl rfl)).2⟩

/-- C7: while the phase is `LOADING` the submit control is disabled, so a
re-entrant submit attempt is not dispatched and changes nothing; at most one
generation request is in flight. -/
theorem c7_loading_disables_submit (s : AppState)
    (h : s.generationState = GenerationState.LOADING) :
    isButtonDisabled s = true ∧
    ∀ (hasAI : Bool) (oracle : Except String String), uiSubmit hasAI oracle s = s := by
  have hd : isButtonDisabled s = true := by simp [isButtonDisabled, h]
  exact ⟨hd, fun hasAI oracle => by simp [uiSubmit, hd]⟩

/-- Witness for C7: the concrete loading state of the demo run has a disabled
submit control and ignores a submit attempt. -/
theorem c7_loading_disables_submit_witness :
    loadingState.generationState = GenerationState.LOADING ∧
    isButtonDisabled loadingState = true ∧
    uiSubmit false demoOracle loadingState = loadingState :=
  ⟨rfl, (c7_loading_disables_submit loadingState rfl).1,
   (c7_loading_disables_submit loadingState rfl).2 false demoOracle⟩

/-- C8: whenever an accepted submission enters `LOADING` (the only transition
into `LOADING`), the prior result and error are cleared there, before the
request is made, while file and prompt are kept. -/
theorem c8_loading_entry_clears_result_error (s s1 : AppState)
    (h : submitBegin s = some s1) :
    s1.result = "" ∧ s1.error = none ∧
    s1.generationState = GenerationState.LOADING ∧
    s1.file = s.file ∧ s1.prompt = s.prompt := by
  unfold submitBegin at h
  split at h
  · exact absurd h (by simp)
  · cases h
    simp

/-- Witness for C8: the demo run enters `LOADING` at `loadingState`, with
result and error cleared. -/
theorem c8_loading_entry_clears_result_error_witness :
    submitBegin demoRun2 = some loadingState ∧
    loadingState.result = "" ∧ loadingState.error = none :=
  ⟨rfl, (c8_loading_entry_clears_result_error demoRun2 loadingState rfl).1,
   (c8_loading_entry_clears_result_error demoRun2 loadingState rfl).2.1⟩

/-- Counterexample for C3: in demo mode (no API credential), removing the
file after a successful demo generation leaves the phase at `SUCCESS`
instead of returning it to `Idle`, contradicting the "regardless of whether
a live API credential is configured" part of the claim. -/
theorem c3_counterexample :
    demoRun3.file.isSome = true ∧
    demoRun3.generationState = GenerationState.SUCCESS ∧
    (handleFileRemove false demoRun3).generationState = GenerationState.SUCCESS ∧
    (handleFileRemove false demoRun3).generationState ≠ GenerationState.IDLE :=
  ⟨rfl, rfl, rfl, by decide⟩

/-- C3 (amended): removing a selected file always resets `file`, `prompt`
and `result`; it additionally clears `error` and returns the phase to `Idle`
only when a live API credential is configured — in demo mode `error` and the
phase are left unchanged. -/
theorem c3_remove_resets (hasAI : Bool) (s : AppState)
    (_h : s.file.isSome = true) :
    (handleFileRemove hasAI s).file = none ∧
    (handleFileRemove hasAI s).prompt = "" ∧
    (handleFileRemove hasAI s).result = "" ∧
    (hasAI = true → (handleFileRemove hasAI s).error = none ∧
      (handleFileRemove hasAI s).generationState = GenerationState.IDLE) ∧
    (hasAI = false → (handleFileRemove hasAI s).error = s.error ∧
      (handleFileRemove hasAI s).generationState = s.generationState) := by
  cases hasAI <;> simp [handleFileRemove]

/-- Witness for C3 (amended): removing `report.pdf` with a live credential
clears everything and returns to `Idle`. -/
theorem c3_remove_resets_witness :
    demoRun1.file.isSome = true ∧
    (handleFileRemove true demoRun1).file = none ∧
    (handleFileRemove true demoRun1).generationState = GenerationState.IDLE := by
  refine ⟨rfl, (c3_remove_resets true demoRun1 rfl).1, ?_⟩
  exact ((c3_remove_resets true demoRun1 rfl).2.2.2.1 rfl).2

/-- Counterexample for C4: a zip archive one byte over the 10 MiB cap is
accepted — selection succeeds, `file` is set and no size-exceeded error is
raised, contradicting the claim that the general size cap applies to
archives. -/
theorem c4_counterexample :
    MAX_SIZE < bigZip.size ∧
    (handleFileSelect [bigZip] initialState).file =
      some { name := "big.zip", type := "application/zip", size := 10485761,
             base64 := "WklQYnl0ZXM=" } ∧
    (handleFileSelect [bigZip] initialState).error = none ∧
    (handleFileSelect [bigZip] initialState).generationState =
      GenerationState.IDLE :=
  ⟨by decide, rfl, rfl, rfl⟩

/-- C4 (amended): a single selected file whose name or MIME type indicates an
archive is read and accepted with no type filtering and no size check at all:
selection succeeds for an archive of any size, storing it under MIME type
`application/zip` with the per-request state reset. -/
theorem c4_zip_selection_unchecked (f : InputFile) (s : AppState)
    (h : isZipFile f = true) :
    handleFileSelect [f] s =
      { s with file := some { name := f.name, type := "application/zip",
                              size := f.size, base64 := fileToBase64 f },
               result := "", error := none,
               generationState := GenerationState.IDLE } := by
  simp [handleFileSelect, selectSingle, h, applyOutcome]

/-- Witness for C4 (amended): the oversized archive is accepted as stated. -/
theorem c4_zip_selection_unchecked_witness :
    isZipFile bigZip = true ∧
    handleFileSelect [bigZip] initialState =
      { initialState with
          file := some { name := "big.zip", type := "application/zip",
                         size := 10485761, base64 := "WklQYnl0ZXM=" },
          result := "", error := none,
          generationState := GenerationState.IDLE } :=
  ⟨rfl, c4_zip_selection_unchecked bigZip initialState rfl⟩

/-- C6: with no API credential, any submission with a selected file and a
non-empty prompt completes in `SUCCESS` (never `ERROR`), and the synthesized
placeholder result contains the file name and the prompt verbatim. -/
theorem c6_demo_submit_succeeds (oracle : Except String String) (s : AppState)
    (fr : StateFile) (hf : s.file = some fr) (hp : s.prompt ≠ "") :
    (handleSubmit false oracle s).generationState = GenerationState.SUCCESS ∧
    (handleSubmit false oracle s).error = none ∧
    (handleSubmit false oracle s).result = demoResponse fr.name s.prompt ∧
    (∃ u v, (handleSubmit false oracle s).result = u ++ fr.name ++ v) ∧
    (∃ u v, (handleSubmit false oracle s).result = u ++ s.prompt ++ v) := by
  have hbeq : (s.prompt == "") = false := by
    simp [hp]
  simp only [handleSubmit, submitBegin, hf, Option.isNone_some, hbeq,
    Bool.false_or, Bool.or_self, if_false]
  refine ⟨rfl, rfl, rfl, ?_, ?_⟩
  · exact ⟨"Demo response:\nFile: ",
      "\nPrompt: " ++ s.prompt ++
        "\n\n(This is a simulated response because no API key was provided.)",
      by simp [demoResponse, String.append_assoc]⟩
  · exact ⟨"Demo response:\nFile: " ++ fr.name ++ "\nPrompt: ",
      "\n\n(This is a simulated response because no API key was provided.)",
      by simp [demoResponse, String.append_assoc]⟩

/-- Witness for C6: the spec scenario — `report.pdf` with prompt
"Summarize" in demo mode ends in `SUCCESS`. -/
theorem c6_demo_submit_succeeds_witness :
    demoRun2.file = some reportRecord ∧ demoRun2.prompt ≠ "" ∧
    (handleSubmit false demoOracle demoRun2).generationState =
      GenerationState.SUCCESS :=
  ⟨rfl, by decide,
   (c6_demo_submit_succeeds demoOracle demoRun2 reportRecord rfl (by decide)).1⟩

/-- C5: a single non-archive file is accepted exactly when its MIME type is
on the allow-list and its size is at most 10 MiB; any violation leaves
`file` unset, enters `ERROR` and records a non-empty validation message. -/
theorem c5_single_nonzip_validation (f : InputFile) (s : AppState)
    (h : isZipFile f = false) :
    (f.size ≤ MAX_SIZE ∧ f.type ∈ allowedTypes →
      handleFileSelect [f] s =
        { s with file := some { name := f.name, type := f.type, size := f.size,
                                base64 := fileToBase64 f },
                 result := "", error := none,
                 generationState := GenerationState.IDLE }) ∧
    (¬(f.size ≤ MAX_SIZE ∧ f.type ∈ allowedTypes) →
      (handleFileSelect [f] s).file = none ∧
      (handleFileSelect [f] s).generationState = GenerationState.ERROR ∧
      ∃ m, (handleFileSelect [f] s).error = some m ∧ m ≠ "") := by
  constructor
  · rintro ⟨hsz, hty⟩
    have hns : ¬ (MAX_SIZE < f.size) := not_lt.mpr hsz
    have hne : ¬ (f.type = "") := by
      intro he
      rw [he] at hty
      simp [allowedTypes] at hty
    simp [handleFileSelect, selectSingle, applyOutcome, h, hns, hty, hne]
  · intro hviol
    rw [not_and_or] at hviol
    rcases hviol with hbig | hty
    · have hlt : MAX_SIZE < f.size := Nat.lt_of_not_le hbig
      simp only [handleFileSelect, selectSingle, applyOutcome, h,
        Bool.false_eq_true, if_false, hlt, if_true]
      exact ⟨trivial, trivial, _, rfl, by decide⟩
    · by_cases hsz : MAX_SIZE < f.size
      · simp only [handleFileSelect, selectSingle, applyOutcome, h,
          Bool.false_eq_true, if_false, hsz, if_true]
        exact ⟨trivial, trivial, _, rfl, by decide⟩
      · simp only [handleFileSelect, selectSingle, applyOutcome, h,
          Bool.false_eq_true, if_false, hsz, hty]
        exact ⟨trivial, trivial, _, rfl, by decide⟩

/-- Witness for C5: `report.pdf` (allowed type, 2 KiB) is accepted with the
per-request state reset. -/
theorem c5_single_nonzip_validation_witness :
    isZipFile reportPdf = false ∧
    (reportPdf.size ≤ MAX_SIZE ∧ reportPdf.type ∈ allowedTypes) ∧
    handleFileSelect [reportPdf] initialState =
      { initialState with
          file := some { name := "report.pdf", type := "application/pdf",
                         size := 2048, base64 := "UERGYnl0ZXM=" },
          result := "", error := none,
          generationState := GenerationState.IDLE } :=
  ⟨rfl, ⟨by decide, by simp [allowedTypes, reportPdf]⟩,
   (c5_single_nonzip_validation reportPdf initialState rfl).1
     ⟨by decide, by simp [allowedTypes, reportPdf]⟩⟩

/-- Counterexample for C1, exhibited on reachable demo-mode states: after a
successful demo generation, (a) selecting an invalid file enters `ERROR`
while keeping the stale non-empty result, and (b) removing the file keeps
the phase at `SUCCESS` while clearing the result — so neither
"`Error` implies result empty" nor "`Success` implies result non-empty"
holds after every event handler. -/
theorem c1_counterexample :
    Reachable false demoRun4 ∧
    demoRun4.generationState = GenerationState.ERROR ∧
    demoRun4.result ≠ "" ∧
    Reachable false demoRun5 ∧
    demoRun5.generationState = GenerationState.SUCCESS ∧
    demoRun5.result = "" := by
  have h3 : Reachable false demoRun3 :=
    Reachable.submit demoOracle demoRun2
      (Reachable.edit "Summarize" demoRun1
        (Reachable.select [reportPdf] initialState Reachable.init))
  refine ⟨Reachable.select [movieMp4] demoRun3 h3, rfl, by decide,
    Reachable.remove demoRun3 h3, rfl, rfl⟩

/-- C1 (amended): in every reachable state of the controller —
demo mode or live — `phase == Success` implies `error` is empty, and
`phase == Error` implies an error message is present; the result field is
not so constrained, because a failed file selection preserves the previous
result and a demo-mode file removal preserves the `Success` phase while
clearing the result. -/
theorem c1_phase_error_invariant (hasAI : Bool) (s : AppState)
    (h : Reachable hasAI s) :
    (s.generationState = GenerationState.SUCCESS → s.error = none) ∧
    (s.generationState = GenerationState.ERROR → s.error ≠ none) := by
  induction h with
  | init => simp [initialState]
  | select files s hr ih =>
    match files with
    | [] => exact ih
    | [f] => exact applyOutcome_phase_error _ _
    | f1 :: f2 :: rest => exact applyOutcome_phase_error _ _
  | remove s hr ih =>
    cases hasAI with
    | true => simp [handleFileRemove]
    | false => simpa [handleFileRemove] using ih
  | edit t s hr ih => simpa [handlePromptInput] using ih
  | submit oracle s hr ih =>
    obtain ⟨file, prompt, result, error, gs⟩ := s
    by_cases hp : prompt = "" <;>
      cases file <;> cases hasAI <;> cases oracle <;>
        simp_all [handleSubmit, submitBegin]

/-- Witness for C1 (amended): the reachable demo-mode success state satisfies
the invariant. -/
theorem c1_phase_error_invariant_witness :
    (demoRun3.generationState = GenerationState.SUCCESS → demoRun3.error = none) ∧
    (demoRun3.generationState = GenerationState.ERROR → demoRun3.error ≠ none) :=
  c1_phase_error_invariant false demoRun3
    (Reachable.submit demoOracle demoRun2
      (Reachable.edit "Summarize" demoRun1
        (Reachable.select [reportPdf] initialState Reachable.init)))

/-- C9: for a multi-file selection, if every file is within the 10 MiB cap
the files are packed into one archive whose entries preserve relative paths
when available, and `state.file` is set to a record named after the common
parent directory (`archive.zip` when no relative path is available) holding
the base64 archive with name, type and size metadata; if any file exceeds
the cap the whole selection fails with a non-empty message and `file` is
left unset. -/
theorem c9_multi_file_selection (f1 f2 : InputFile) (rest : List InputFile)
    (s : AppState) :
    ((∀ f ∈ f1 :: f2 :: rest, f.size ≤ MAX_SIZE) →
      handleFileSelect (f1 :: f2 :: rest) s =
        { s with
            file := some { name := zipName (f1 :: f2 :: rest),
                           type := "application/zip", size := 0,
                           base64 := filesToZipBase64 (f1 :: f2 :: rest) },
            result := "", error := none,
            generationState := GenerationState.IDLE } ∧
      (∀ f ∈ f1 :: f2 :: rest, f.webkitRelativePath ≠ "" →
        (f.webkitRelativePath, fileToBase64 f) ∈ zipEntries (f1 :: f2 :: rest)) ∧
      (∀ d, d ≠ "" →
        (∀ f ∈ f1 :: f2 :: rest, firstSegment f.webkitRelativePath = d) →
        zipName (f1 :: f2 :: rest) = d ++ ".zip") ∧
      (f1.webkitRelativePath = "" → zipName (f1 :: f2 :: rest) = "archive.zip")) ∧
    ((∃ f ∈ f1 :: f2 :: rest, MAX_SIZE < f.size) →
      (handleFileSelect (f1 :: f2 :: rest) s).file = none ∧
      (handleFileSelect (f1 :: f2 :: rest) s).generationState =
        GenerationState.ERROR ∧
      ∃ m, (handleFileSelect (f1 :: f2 :: rest) s).error = some m ∧ m ≠ "") := by
  constructor
  · intro hall
    have hfind : (f1 :: f2 :: rest).find? (fun f => decide (MAX_SIZE < f.size)) = none := by
      rw [List.find?_eq_none]
      intro x hx
      simp [Nat.not_lt.mpr (hall x hx)]
    refine ⟨by simp [handleFileSelect, selectMultiple, hfind, applyOutcome], ?_, ?_, ?_⟩
    · intro f hf hrel
      exact List.mem_map.mpr ⟨f, hf, by simp [zipPath, hrel]⟩
    · intro d hd hseg
      have h1 : firstSegment f1.webkitRelativePath = d := hseg f1 (by simp)
      have hrelne : ¬ (f1.webkitRelativePath = "") := by
        intro he
        rw [he] at h1
        apply hd
        rw [← h1]
        rfl
      simp [zipName, hrelne, h1, hd]
    · intro he
      simp [zipName, he]
  · rintro ⟨f, hf, hfsz⟩
    have hsome : ((f1 :: f2 :: rest).find? (fun f => decide (MAX_SIZE < f.size))).isSome := by
      rw [List.find?_isSome]
      exact ⟨f, hf, by simp [hfsz]⟩
    obtain ⟨fw, hfw⟩ := Option.isSome_iff_exists.mp hsome
    simp only [handleFileSelect, selectMultiple, hfw, applyOutcome]
    exact ⟨trivial, trivial, _, rfl, append_ne_empty_left _ _ (by decide)⟩

/-- Witness for C9: selecting the two-file folder `docs` packs both files
under their relative paths into `docs.zip`. -/
theorem c9_multi_file_selection_witness :
    (∀ f ∈ [folderFileA, folderFileB], f.size ≤ MAX_SIZE) ∧
    handleFileSelect [folderFileA, folderFileB] initialState =
      { initialState with
          file := some { name := "docs.zip", type := "application/zip",
                         size := 0,
                         base64 := "docs/a.txt:QQ==;docs/b.txt:Qg==" },
          result := "", error := none,
          generationState := GenerationState.IDLE } := by
  have hall : ∀ f ∈ [folderFileA, folderFileB], f.size ≤ MAX_SIZE := by decide
  refine ⟨hall, ?_⟩
  rw [((c9_multi_file_selection folderFileA folderFileB [] initialState).1 hall).1]
  rfl
